import Mathlib

/-!
Verification development for the clusterdock cluster/node lifecycle
orchestrator (clusterdock/cluster.py, clusterdock/docker_utils.py,
clusterdock/ssh.py).  The Python sources are shallowly embedded: pure
helpers become Lean functions, engine interactions become explicit event
traces parameterized by oracles describing the engine responses, and
Python exceptions become Except values.
-/

set_option maxRecDepth 4000

/-! ## String helpers mirroring the Python primitives used by the sources -/

/-- Boolean list-prefix test (used to model Python substring containment). -/
def isPrefixOfB : List Char → List Char → Bool
  | [], _ => true
  | _ :: _, [] => false
  | a :: as, b :: bs => a == b && isPrefixOfB as bs

/-- Model of the Python substring test `needle in hay`. -/
def containsSub (needle : List Char) : List Char → Bool
  | [] => isPrefixOfB needle []
  | c :: cs => isPrefixOfB needle (c :: cs) || containsSub needle cs

/-- Part of a string before its last occurrence of `sep`, if `sep` occurs:
the auxiliary recursion behind Python `s.rsplit(sep, 1)[0]`. -/
def rsplitHeadAux (sep : Char) : List Char → Option (List Char)
  | [] => none
  | c :: cs =>
    match rsplitHeadAux sep cs with
    | some rest => some (c :: rest)
    | none => if c == sep then some [] else none

/-- Model of Python `s.rsplit(sep, 1)[0]`: everything before the last
occurrence of `sep`, or the whole string when `sep` does not occur. -/
def rsplitHead (sep : Char) (s : List Char) : List Char :=
  (rsplitHeadAux sep s).getD s

/-- Model of Python `s.rsplit(sep)[-1]`: everything after the last
occurrence of `sep`, or the whole string when `sep` does not occur. -/
def lastSegment (sep : Char) : List Char → List Char
  | [] => []
  | c :: cs =>
    if cs.contains sep then lastSegment sep cs
    else if c == sep then cs
    else c :: lastSegment sep cs

/-! ## IPv4 subnets (netaddr.IPNetwork as used by docker_utils.py)

An `IPNet` is a CIDR value: a 32-bit address (as a natural number) plus a
prefix length.  netaddr derives from it the first and last addresses of
the block; `IPNetwork.__eq__` compares `(version, first, last)`, so two
`IPNetwork` values are equal exactly when they denote the same address
range. -/

structure IPNet where
  ip : Nat
  plen : Nat
deriving DecidableEq, Repr

/-- Number of addresses in the block of an `IPNet` (netaddr `size`). -/
def blockSize (n : IPNet) : Nat := 2 ^ (32 - n.plen)

/-- First address of the block (netaddr `first` / the network address). -/
def netFirst (n : IPNet) : Nat := n.ip - n.ip % blockSize n

/-- Last address of the block (netaddr `last`). -/
def netLast (n : IPNet) : Nat := netFirst n + blockSize n - 1

/-- netaddr `IPNetwork.__eq__`: equality of `(first, last)` address pairs. -/
def ipnetEq (a b : IPNet) : Bool := netFirst a == netFirst b && netLast a == netLast b

/-- netaddr `IPNetwork.next(1)`: the adjacent block of the same prefix
length after this one. -/
def nextSubnet (n : IPNet) : IPNet := ⟨netFirst n + blockSize n, n.plen⟩

/-- docker_utils.py:205-209 `overlaps_network_subnet`: the Python code
evaluates `IPNetwork(subnet) in subnets` where `subnets` is the list of
existing Docker network subnets; Python list membership tests elementwise
equality, i.e. netaddr range equality. -/
def overlaps_network_subnet (subnets : List IPNet) (subnet : IPNet) : Bool :=
  subnets.any (fun s => ipnetEq subnet s)

/-- Two address ranges are disjoint when they share no address.  This is
the property the specification attributes to the subnet search. -/
def subnetsDisjoint (a b : IPNet) : Prop :=
  netLast a < netFirst b ∨ netLast b < netFirst a

/-- docker_utils.py:211-217 `get_available_network_subnet`: starting from
`start`, advance to the next block of equal prefix length while the
candidate "overlaps" (per `overlaps_network_subnet`), returning the first
candidate that does not. -/
def get_available_network_subnet (subnets : List IPNet) (start : IPNet) : IPNet :=
  if h : overlaps_network_subnet subnets start = true then
    get_available_network_subnet subnets (nextSubnet start)
  else start
termination_by (subnets.map netFirst).foldr Nat.max 0 + blockSize start - netFirst start
decreasing_by
  simp_wf
  have hb : 0 < blockSize start := Nat.pow_pos (by norm_num)
  have hmod : netFirst start % blockSize start = 0 := by
    have hdm := Nat.div_add_mod start.ip (blockSize start)
    have hrw : netFirst start = blockSize start * (start.ip / blockSize start) := by
      unfold netFirst
      omega
    rw [hrw]
    exact Nat.mul_mod_right _ _
  have e1 : blockSize (nextSubnet start) = blockSize start := rfl
  have e2 : netFirst (nextSubnet start) = netFirst start + blockSize start := by
    have h0 : netFirst (nextSubnet start) =
        (netFirst start + blockSize start) -
          (netFirst start + blockSize start) % blockSize start := rfl
    rw [h0, Nat.add_mod_right, hmod]
    omega
  have hall : ∀ (l : List IPNet) (x : IPNet), x ∈ l →
      netFirst x ≤ List.foldr Nat.max 0 (List.map netFirst l) := by
    intro l
    induction l with
    | nil => intro x hx; simp at hx
    | cons a t ih =>
      intro x hx
      rcases List.mem_cons.mp hx with hx | hx
      · subst hx; exact le_max_left _ _
      · exact le_trans (ih x hx) (le_max_right _ _)
  have hle : netFirst start ≤ List.foldr Nat.max 0 (List.map netFirst subnets) := by
    unfold overlaps_network_subnet at h
    rw [List.any_eq_true] at h
    obtain ⟨e, he, heq⟩ := h
    unfold ipnetEq at heq
    rw [Bool.and_eq_true, beq_iff_eq, beq_iff_eq] at heq
    rw [heq.1]
    exact hall subnets e he
  omega

/-! ## Engine calls, Python errors, and keyword-argument binding -/

/-- External calls the orchestrator issues to the container engine (and
the one timed sleep it performs between subnet-resolution retries).  The
`removeHostFolders` constructor stands for the whole busybox helper
sequence of docker_utils.py:296-315 (pull, create, start, stream logs,
wait, remove of the helper container); its internals are not needed by
any claim. -/
inductive DockerCall where
  | createNetwork (name : String)
  | createContainer (hostname : String) (image : String)
  | disconnectFromBridge (container : String)
  | connectToNetwork (container : String) (network : String)
  | startContainer (container : String)
  | removeContainer (id : String)
  | removeHostFolders (folders : List String)
  | getSubnetLookup (networkId : String)
  | sleepSeconds (n : Nat)
deriving DecidableEq, Repr

/-- Python exceptions raised by the embedded code. -/
inductive PyError where
  | typeError (fn : String) (unexpectedKwarg : String)
  | exception (message : String)
deriving DecidableEq, Repr

/-- Failure modes of the underlying remote command used by the
reachability probe (ssh.py `quiet_ssh` via Fabric): per the spec, a
timeout, an authentication failure, a connection refusal, or any other
raised error (`except BaseException` catches them all). -/
inductive ProbeError where
  | timeout
  | authFailure
  | connectionRefused
  | other (message : String)
deriving DecidableEq, Repr

/-- Python keyword-argument binding: calling a function whose parameter
list is `params` with keyword arguments `args` raises
`TypeError: ... got an unexpected keyword argument ...` at the first
keyword not among the parameters; `none` means the call binds. -/
def pyCallKwargs (params : List String) (args : List String) : Option String :=
  args.find? (fun a => !(params.contains a))

/-- Parameter list of docker_utils.py:53
`def is_container_reachable(container_id, network=None)`. -/
def is_container_reachable_params : List String := ["container_id", "network"]

/-- Keyword arguments passed at cluster.py:263-264:
`is_container_reachable(container_id=..., network=..., ssh_key=...)`. -/
def node_start_reachable_kwargs : List String := ["container_id", "network", "ssh_key"]

/-- Parameter list of ssh.py:57 `def ssh(command, hosts)`. -/
def ssh_params : List String := ["command", "hosts"]

/-- Keyword arguments passed at cluster.py:176 (`NodeGroup.ssh`):
`ssh(command=command, hosts=[...], ssh_key=ssh_key)`. -/
def nodegroup_ssh_call_kwargs : List String := ["command", "hosts", "ssh_key"]

/-- Keyword arguments passed at cluster.py:102-104 (`Cluster.ssh`):
`ssh(command=command, hosts=[...], ssh_key=self.ssh_key)`. -/
def cluster_ssh_call_kwargs : List String := ["command", "hosts", "ssh_key"]

/-- Methods defined by class NodeGroup (cluster.py:152-176).  There is no
`__getitem__`, so Python indexing `self[0]` at cluster.py:175 raises
TypeError. -/
def nodegroup_methods : List String := ["__init__", "__iter__", "add_node", "ssh"]

/-- Whether NodeGroup supports indexing. -/
def nodegroup_getitem_defined : Bool := nodegroup_methods.contains "__getitem__"

/-! ## Reachability probe (docker_utils.py:53-62) -/

/-- docker_utils.py:53-62 `is_container_reachable`: inside a
`try ... except BaseException: return False` block it resolves the
container address (`get_container_ip_address`, which may itself raise)
and runs `quiet_ssh("whoami", ip)`; it returns True only when both
steps complete without raising.  `ipLookup` is the outcome of the
address resolution and `sshResult` the outcome of the remote command on
a given address. -/
def is_container_reachable (ipLookup : Except ProbeError String)
    (sshResult : String → Except ProbeError String) : Bool :=
  match ipLookup with
  | .error _ => false
  | .ok ip =>
    match sshResult ip with
    | .ok _ => true
    | .error _ => false

/-! ## Node (cluster.py:178-271) -/

/-- Constructor arguments of Node.__init__ (cluster.py:189-209).
`volumes` holds the caller-supplied (host path, container path) pairs. -/
structure NodeDesc where
  hostname : String
  network : String
  image : String
  volumes : List (String × String)
deriving DecidableEq, Repr

/-- cluster.py:194 `self.fqdn = "{hostname}.{network}"`. -/
def node_fqdn (n : NodeDesc) : String := n.hostname ++ "." ++ n.network

/-- cluster.py:202: `/etc/localtime` is always volume mounted first, so
the `volumes` attribute is the localtime pair followed by the
caller-supplied pairs. -/
def node_volumes (n : NodeDesc) : List (String × String) :=
  ("/etc/localtime", "/etc/localtime") :: n.volumes

/-- cluster.py:211-215 `Node._get_binds`: each (host dir, container dir)
pair of the `volumes` attribute formatted as "host:container:rw",
preserving order. -/
def get_binds (volumes : List (String × String)) : List String :=
  volumes.map (fun v => v.1 ++ ":" ++ v.2 ++ ":rw")

/-- cluster.py:246-251: the per-mount labels recorded on the container,
an index-keyed (1-based) label per caller-supplied host directory, the
localtime mount excluded. -/
def node_labels (n : NodeDesc) : List (String × String) :=
  (List.enumFrom 1 (((node_volumes n).map Prod.fst).filter
      (fun h => h != "/etc/localtime"))).map
    (fun ih => ("volume" ++ toString ih.1, ih.2))

/-- Engine responses consumed by one run of Node.start (cluster.py:217-267):
the id assigned by create_container, the address read back from the
network, and the outcomes feeding the reachability probe. -/
structure NodeStartOracle where
  containerId : String
  ipAddress : String
  ipLookup : Except ProbeError String
  sshResult : String → Except ProbeError String

/-- cluster.py:217-267 `Node.start`: create the container (hostname =
fqdn), detach it from the default bridge network, attach it to the
target network, start it, read back its address, then evaluate the call
at cluster.py:263-264.  That call passes keyword arguments
`container_id`, `network`, `ssh_key`, but docker_utils.py:53 declares
only `container_id` and `network`, so Python keyword binding raises
TypeError there; only if the binding succeeded would the code reach
the `raise Exception("Timed out waiting for ...")` branch at
cluster.py:265. -/
def node_start (n : NodeDesc) (oracle : NodeStartOracle) :
    List DockerCall × Except PyError Unit :=
  let cid := oracle.containerId
  let calls := [DockerCall.createContainer (node_fqdn n) n.image,
                DockerCall.disconnectFromBridge cid,
                DockerCall.connectToNetwork cid n.network,
                DockerCall.startContainer cid]
  match pyCallKwargs is_container_reachable_params node_start_reachable_kwargs with
  | some bad => (calls, .error (.typeError "is_container_reachable" bad))
  | none =>
    (calls,
      if is_container_reachable oracle.ipLookup oracle.sshResult then .ok ()
      else .error (.exception
        ("Timed out waiting for " ++ n.hostname ++ " to become reachable.")))

/-! ## Cluster (cluster.py:46-149) -/

/-- cluster.py:100-104 `Cluster.ssh` host selection: the comprehension
`[node.ip_address for node in self.nodes if not nodes or node in nodes]`.
`ips` maps a node to its `ip_address` attribute; `subset` is the `nodes`
argument (`none` for the default `nodes=None`).  Python truthiness makes
`not nodes` true for both `None` and the empty list. -/
def cluster_ssh_hosts (nodes : List NodeDesc) (ips : NodeDesc → String)
    (subset : Option (List NodeDesc)) : List String :=
  (nodes.filter (fun nd =>
    match subset with
    | none => true
    | some s => s.isEmpty || s.contains nd)).map ips

/-- cluster.py:106-133 `Cluster.start`, up to thread completion.  The
network is provisioned first (setup_network, modeled here by its success
path, which issues only a network-level create when the network is
absent; its retry protocol is modeled separately by
`setup_network_iteration`).  Then the hostnames of containers already in
the target network are enumerated and each declared node is checked
against them (cluster.py:116-124); the first collision raises before the
node-start threads are created.  Only in the no-collision case are the
per-node `node.start` threads launched (their engine calls are the
per-node `node_start` traces; an exception inside a thread is not
propagated by `Thread.join`). -/
def cluster_start (networkPresent : Bool) (networkName : String)
    (existingHostnames : List String) (nodes : List NodeDesc)
    (oracle : NodeDesc → NodeStartOracle) :
    List DockerCall × Except PyError Unit :=
  let setupCalls := if networkPresent then [] else [DockerCall.createNetwork networkName]
  match nodes.find? (fun nd => existingHostnames.contains nd.hostname) with
  | some nd =>
    (setupCalls, .error (.exception
      ("A container with hostname " ++ nd.hostname ++ " already exists in network "
        ++ networkName)))
  | none =>
    (setupCalls ++ (nodes.map (fun nd => (node_start nd (oracle nd)).1)).flatten, .ok ())

/-- Recognizer for container-creating engine calls. -/
def isCreateContainer : DockerCall → Bool
  | .createContainer _ _ => true
  | _ => false

/-! ## Network provisioning retry protocol (cluster.py:61-98) -/

/-- Outcome of `client.create_network` (cluster.py:69-71): success, or an
APIError carrying an explanation string. -/
inductive CreateNetworkResult where
  | ok
  | apiError (explanation : String)
deriving DecidableEq, Repr

/-- Outcome of one `get_network_subnet(conflicting_network)` call
(docker_utils.py:167-177): the subnet, or a NetworkNotFoundException
carrying its message. -/
inductive SubnetLookupResult where
  | found (subnet : IPNet)
  | notFound (message : String)
deriving DecidableEq, Repr

/-- Result of one pass of the creation retry body. -/
inductive IterationOutcome where
  | success
  | raisedApi (explanation : String)
  | raisedNotFound (message : String)
  | raisedIndexError
  | continueWith (next : Option IPNet)
deriving DecidableEq, Repr

/-- Substring tested at cluster.py:73. -/
def overlapMarker : List Char := "networks have overlapping IPv4".data

/-- Substring tested at cluster.py:91. -/
def cannotFindMarker : List Char := "Cannot find network".data

/-- First position where `marker` occurs in the list, returning the
remainder after it, scanning left to right. -/
def findAfter (marker : List Char) : List Char → Option (List Char)
  | [] => if isPrefixOfB marker [] then some [] else none
  | c :: cs =>
    if isPrefixOfB marker (c :: cs) then some (List.drop marker.length (c :: cs))
    else findAfter marker cs

/-- cluster.py:79-80: `re.findall(r'conflicts with network (\S+)', e)[0]`,
the first maximal non-whitespace token following the literal
"conflicts with network "; `none` models the IndexError branch where the
pattern does not match. -/
def extractConflictName (e : List Char) : Option (List Char) :=
  match findAfter "conflicts with network ".data e with
  | none => none
  | some rest =>
    let tok := rest.takeWhile (fun c => !c.isWhitespace)
    if tok.isEmpty then none else some tok

/-- cluster.py:85-95: the bounded subnet-resolution retry loop
`for _ in range(0, 5)`.  `script i` is the outcome of the i-th
`get_network_subnet(conflicting_network)` call.  On a
NetworkNotFoundException whose message contains "Cannot find network"
the code sleeps one second and retries; on any other
NetworkNotFoundException message it re-raises; on success it computes
the next available subnet past the conflicting one and leaves the loop. -/
def resolveLoop (subnets : List IPNet) (name : String)
    (script : Nat → SubnetLookupResult) (i : Nat) :
    Nat → List DockerCall × IterationOutcome
  | 0 => ([], .continueWith none)
  | fuel + 1 =>
    match script i with
    | .found s =>
      ([DockerCall.getSubnetLookup name],
       .continueWith (some (get_available_network_subnet subnets s)))
    | .notFound msg =>
      if containsSub cannotFindMarker msg.data then
        let rest := resolveLoop subnets name script (i + 1) fuel
        (DockerCall.getSubnetLookup name :: DockerCall.sleepSeconds 1 :: rest.1, rest.2)
      else ([DockerCall.getSubnetLookup name], .raisedNotFound msg)

/-- One pass of the `while True` creation loop of cluster.py:67-98:
attempt `client.create_network`; on success break; on an APIError whose
explanation does not contain the overlap marker re-raise it; otherwise
extract the conflicting network name from the explanation and run the
bounded subnet-resolution retry loop. -/
def setup_network_iteration (subnets : List IPNet) (networkName : String)
    (createResult : CreateNetworkResult) (script : Nat → SubnetLookupResult) :
    List DockerCall × IterationOutcome :=
  match createResult with
  | .ok => ([DockerCall.createNetwork networkName], .success)
  | .apiError e =>
    if containsSub overlapMarker e.data then
      match extractConflictName e.data with
      | none => ([DockerCall.createNetwork networkName], .raisedIndexError)
      | some cname =>
        let rest := resolveLoop subnets (String.mk cname) script 0 5
        (DockerCall.createNetwork networkName :: rest.1, rest.2)
    else ([DockerCall.createNetwork networkName], .raisedApi e)

/-- Number of subnet-resolution attempts in a trace. -/
def lookupCount (calls : List DockerCall) : Nat :=
  calls.countP (fun c => match c with | .getSubnetLookup _ => true | _ => false)

/-! ## Bulk teardown (docker_utils.py:259-318) -/

/-- A container as listed by `client.containers(all=True)`: its id and
its labels. -/
structure ContainerInfo where
  id : String
  labels : List (String × String)
deriving DecidableEq, Repr

/-- docker_utils.py:279-286: the host folders scheduled for deletion for
one container: label values whose key contains "volume" and whose
`value.rsplit('/', 1)[0]` is a non-empty (truthy) string. -/
def host_folders_to_delete (labels : List (String × String)) : List String :=
  (labels.filter (fun kv =>
    containsSub "volume".data kv.1.data && !(rsplitHead '/' kv.2.data).isEmpty)).map
    Prod.snd

/-- docker_utils.py:259-268 `get_clusterdock_container_id`: scan the lines
of /proc/self/cgroup; the first line containing "docker" yields the
orchestrator container id as `line.rsplit('/')[-1]`; if no line matches,
raise ContainerNotFoundException. -/
def get_clusterdock_container_id (cgroupLines : List String) : Except String String :=
  match cgroupLines.find? (fun line => containsSub "docker".data line.data) with
  | some line => .ok (String.mk (lastSegment '/' line.data))
  | none => .error "Could not find container name from /proc/self/cgroup."

/-- Engine calls of the docker_utils.py:276-318 loop body for one listed
container, given the orchestrator container id: when the container has
host folders to reclaim, the busybox helper sequence runs; then the
container itself is removed exactly when its id differs from the
orchestrator id (docker_utils.py:317-318). -/
def container_teardown_calls (ownId : String) (c : ContainerInfo) : List DockerCall :=
  (if (host_folders_to_delete c.labels).isEmpty then []
   else [DockerCall.removeHostFolders (host_folders_to_delete c.labels)]) ++
  (if c.id ≠ ownId then [DockerCall.removeContainer c.id] else [])

/-- The engine calls issued by the container loop of
docker_utils.py:276-318 for a given orchestrator id. -/
def remove_all_containers_calls (ownId : String) (containers : List ContainerInfo) :
    List DockerCall :=
  (containers.map (container_teardown_calls ownId)).flatten

/-- docker_utils.py:271-318 `remove_all_containers`: resolve the
orchestrator container id from the cgroup lines (propagating
ContainerNotFoundException), then run the per-container loop. -/
def remove_all_containers (cgroupLines : List String)
    (containers : List ContainerInfo) : Except String (List DockerCall) :=
  match get_clusterdock_container_id cgroupLines with
  | .error e => .error e
  | .ok ownId => .ok (remove_all_containers_calls ownId containers)

/-! ## Theorems -/

/-- If the starting candidate does not "overlap" (in the sense of
`overlaps_network_subnet`), the search returns it unchanged. -/
theorem get_available_network_subnet_of_no_overlap (subnets : List IPNet) (s : IPNet)
    (h : overlaps_network_subnet subnets s = false) :
    get_available_network_subnet subnets s = s := by
  unfold get_available_network_subnet
  simp [h]

/-- Claim C1 (code bug): the spec says the subnet search returns a
candidate disjoint from every existing subnet, but
`overlaps_network_subnet` tests netaddr range equality (Python list
membership), not overlap.  With the existing subnet 192.168.122.0/23
and base candidate 192.168.123.0/24, the search returns the base
candidate itself even though every one of its addresses lies inside the
existing subnet. -/
theorem get_available_network_subnet_not_disjoint :
    get_available_network_subnet [⟨3232266752, 23⟩] ⟨3232267008, 24⟩ = ⟨3232267008, 24⟩ ∧
    ¬ subnetsDisjoint ⟨3232267008, 24⟩ ⟨3232266752, 23⟩ := by
  constructor
  · exact get_available_network_subnet_of_no_overlap _ _ (by decide)
  · unfold subnetsDisjoint
    decide

/-- Claim C3 (code bug): cluster.py:263-264 calls
`is_container_reachable` with the keyword argument `ssh_key`, which the
definition at docker_utils.py:53 does not accept, so `Node.start` always
fails with a TypeError at the probe call and never raises the
reachability-timeout exception of cluster.py:265, whatever the probe
outcomes are. -/
theorem node_start_typeerror_not_timeout (n : NodeDesc) (oracle : NodeStartOracle) :
    (node_start n oracle).2
      = Except.error (PyError.typeError "is_container_reachable" "ssh_key") ∧
    ∀ msg, (node_start n oracle).2 ≠ Except.error (PyError.exception msg) := by
  have h1 : (node_start n oracle).2
      = Except.error (PyError.typeError "is_container_reachable" "ssh_key") := rfl
  refine ⟨h1, ?_⟩
  intro msg hmsg
  rw [h1] at hmsg
  simp at hmsg

/-- Evaluation of the C3 theorem at a concrete node whose probe never
succeeds. -/
theorem node_start_typeerror_not_timeout_witness :
    (node_start ⟨"node-1", "net1", "img", []⟩
        ⟨"cid1", "10.0.0.2", Except.error ProbeError.timeout,
          fun _ => Except.error ProbeError.timeout⟩).2
      = Except.error (PyError.typeError "is_container_reachable" "ssh_key") ∧
    (node_start ⟨"node-1", "net1", "img", []⟩
        ⟨"cid1", "10.0.0.2", Except.error ProbeError.timeout,
          fun _ => Except.error ProbeError.timeout⟩).2
      ≠ Except.error (PyError.exception
          "Timed out waiting for node-1 to become reachable.") := by
  refine ⟨(node_start_typeerror_not_timeout _ _).1, ?_⟩
  exact (node_start_typeerror_not_timeout _ _).2 _

/-- Claim C5: a label value whose parent path component (everything
before its last separator) is empty is never scheduled for host-folder
deletion by the teardown loop. -/
theorem teardown_never_schedules_rootlike (labels : List (String × String)) (v : String)
    (hsep : '/' ∈ v.data) (hroot : rsplitHead '/' v.data = []) :
    v ∉ host_folders_to_delete labels := by
  intro hmem
  unfold host_folders_to_delete at hmem
  rw [List.mem_map] at hmem
  obtain ⟨kv, hkv, hv⟩ := hmem
  rw [List.mem_filter] at hkv
  have h2 := hkv.2
  rw [Bool.and_eq_true] at h2
  have h3 := h2.2
  rw [hv, hroot] at h3
  simp at h3

/-- Evaluation of the C5 theorem: the bare root-level path "/data" is
excluded even when labeled. -/
theorem teardown_never_schedules_rootlike_witness :
    "/data" ∉ host_folders_to_delete [("volume1", "/data"), ("volume2", "/mnt/x")] :=
  teardown_never_schedules_rootlike _ "/data" (by decide) (by decide)

/-- Claim C6 counterexample: with caller bind inputs
[("/a","/b"), ("/c","/d")] the derived bind specs are not
["/a:/b:rw", "/c:/d:rw"], because Node.__init__ (cluster.py:202) always
prepends the /etc/localtime mount to the volumes list that _get_binds
formats. -/
theorem get_binds_counterexample :
    get_binds (node_volumes ⟨"node-1", "net1", "img", [("/a", "/b"), ("/c", "/d")]⟩)
      ≠ ["/a:/b:rw", "/c:/d:rw"] := by
  decide

/-- Claim C6 as amended: the derived bind specs are the localtime
read-write spec followed by each caller-supplied (host, container) pair
formatted as "host:container:rw" in input order; in particular, for the
inputs [("/a","/b"), ("/c","/d")] they are exactly
["/etc/localtime:/etc/localtime:rw", "/a:/b:rw", "/c:/d:rw"]. -/
theorem get_binds_localtime_then_inputs :
    (∀ n : NodeDesc, get_binds (node_volumes n)
      = "/etc/localtime:/etc/localtime:rw"
          :: n.volumes.map (fun v => v.1 ++ ":" ++ v.2 ++ ":rw")) ∧
    get_binds (node_volumes ⟨"node-1", "net1", "img", [("/a", "/b"), ("/c", "/d")]⟩)
      = ["/etc/localtime:/etc/localtime:rw", "/a:/b:rw", "/c:/d:rw"] := by
  exact ⟨fun n => rfl, rfl⟩

/-- Claim C8: the reachability probe returns true exactly when both the
address lookup and the remote command complete successfully; every
failure mode collapses to false. -/
theorem is_container_reachable_collapses (ipLookup : Except ProbeError String)
    (sshResult : String → Except ProbeError String) :
    is_container_reachable ipLookup sshResult = true ↔
      ∃ ip out, ipLookup = Except.ok ip ∧ sshResult ip = Except.ok out := by
  cases ipLookup with
  | error e => simp [is_container_reachable]
  | ok ip =>
    cases hs : sshResult ip with
    | error e =>
      simp only [is_container_reachable, hs]
      constructor
      · intro h; simp at h
      · rintro ⟨ip2, out, h1, h2⟩
        injection h1 with h1
        subst h1
        rw [hs] at h2
        cases h2
    | ok v =>
      simp only [is_container_reachable, hs]
      exact ⟨fun _ => ⟨ip, v, rfl, hs⟩, fun _ => trivial⟩

/-- Evaluation of the C8 theorem at concrete probe outcomes. -/
theorem is_container_reachable_collapses_witness :
    is_container_reachable (Except.ok "10.0.0.2") (fun _ => Except.ok "root") = true ∧
    is_container_reachable (Except.error ProbeError.timeout)
      (fun _ => Except.ok "root") = false := by
  constructor
  · exact (is_container_reachable_collapses _ _).mpr ⟨"10.0.0.2", "root", rfl, rfl⟩
  · rfl

/-- Claim C9 (code bug): NodeGroup (cluster.py:152-176) defines no
`__getitem__`, so the `self[0]` lookup at cluster.py:175 raises
TypeError before any key material is resolved, and the subsequent
`ssh(..., ssh_key=...)` call at cluster.py:176 passes the keyword
`ssh_key` that `def ssh(command, hosts)` (ssh.py:57) does not accept. -/
theorem nodegroup_ssh_typeerror :
    nodegroup_getitem_defined = false ∧
    pyCallKwargs ssh_params nodegroup_ssh_call_kwargs = some "ssh_key" := by
  constructor
  · rfl
  · rfl

/-- Claim C10: the Cluster.ssh host selection treats an empty nodes
subset exactly like an absent one: in both cases every node of the
cluster is selected. -/
theorem cluster_ssh_empty_subset_targets_all (nodes : List NodeDesc)
    (ips : NodeDesc → String) :
    cluster_ssh_hosts nodes ips (some []) = cluster_ssh_hosts nodes ips none ∧
    cluster_ssh_hosts nodes ips (some []) = nodes.map ips := by
  constructor
  · rfl
  · simp [cluster_ssh_hosts]

/-- Claim C2: when some declared node hostname already appears among the
hostnames of containers in the target network, Cluster.start raises and
no container-creating engine call is made. -/
theorem cluster_start_collision_creates_nothing
    (networkPresent : Bool) (networkName : String)
    (existingHostnames : List String) (nodes : List NodeDesc)
    (oracle : NodeDesc → NodeStartOracle) (n : NodeDesc)
    (hmem : n ∈ nodes) (hcol : n.hostname ∈ existingHostnames) :
    (∃ msg, (cluster_start networkPresent networkName existingHostnames nodes oracle).2
        = Except.error (PyError.exception msg)) ∧
    (cluster_start networkPresent networkName existingHostnames nodes oracle).1.countP
        isCreateContainer = 0 := by
  cases hf : nodes.find? (fun nd => existingHostnames.contains nd.hostname) with
  | none =>
    rw [List.find?_eq_none] at hf
    have hn := hf n hmem
    simp at hn
    exact absurd hcol hn
  | some nd =>
    constructor
    · refine ⟨"A container with hostname " ++ nd.hostname
        ++ " already exists in network " ++ networkName, ?_⟩
      unfold cluster_start
      rw [hf]
    · unfold cluster_start
      rw [hf]
      cases networkPresent with
      | true => simp
      | false => simp [isCreateContainer]

/-- Evaluation of the C2 theorem: a one-node cluster whose hostname is
already present in the network raises and creates nothing. -/
theorem cluster_start_collision_creates_nothing_witness :
    (∃ msg, (cluster_start false "net1" ["node-1"] [⟨"node-1", "net1", "img", []⟩]
        (fun _ => ⟨"cid1", "10.0.0.2", Except.error ProbeError.timeout,
          fun _ => Except.error ProbeError.timeout⟩)).2
      = Except.error (PyError.exception msg)) ∧
    (cluster_start false "net1" ["node-1"] [⟨"node-1", "net1", "img", []⟩]
        (fun _ => ⟨"cid1", "10.0.0.2", Except.error ProbeError.timeout,
          fun _ => Except.error ProbeError.timeout⟩)).1.countP
      isCreateContainer = 0 :=
  cluster_start_collision_creates_nothing false "net1" ["node-1"]
    [⟨"node-1", "net1", "img", []⟩]
    (fun _ => ⟨"cid1", "10.0.0.2", Except.error ProbeError.timeout,
      fun _ => Except.error ProbeError.timeout⟩)
    ⟨"node-1", "net1", "img", []⟩ (by simp) (by simp)

/-- The bounded retry loop performs at most `fuel` subnet lookups. -/
theorem resolveLoop_lookup_le (subnets : List IPNet) (name : String)
    (script : Nat → SubnetLookupResult) :
    ∀ (fuel i : Nat), lookupCount (resolveLoop subnets name script i fuel).1 ≤ fuel := by
  intro fuel
  induction fuel with
  | zero => intro i; simp [resolveLoop, lookupCount]
  | succ f ih =>
    intro i
    cases hs : script i with
    | found s =>
      simp [resolveLoop, hs, lookupCount]
    | notFound msg =>
      by_cases hm : containsSub cannotFindMarker msg.data = true
      · have hr := ih (i + 1)
        simp only [lookupCount] at hr
        simp [resolveLoop, hs, hm, lookupCount, List.countP_cons]
        omega
      · simp only [Bool.not_eq_true] at hm
        simp [resolveLoop, hs, hm, lookupCount]

/-- Every sleep in the bounded retry loop is the fixed one-second
backoff. -/
theorem resolveLoop_sleep_one (subnets : List IPNet) (name : String)
    (script : Nat → SubnetLookupResult) :
    ∀ (fuel i k : Nat),
      DockerCall.sleepSeconds k ∈ (resolveLoop subnets name script i fuel).1 → k = 1 := by
  intro fuel
  induction fuel with
  | zero => intro i k hk; simp [resolveLoop] at hk
  | succ f ih =>
    intro i k hk
    cases hs : script i with
    | found s =>
      simp [resolveLoop, hs] at hk
    | notFound msg =>
      by_cases hm : containsSub cannotFindMarker msg.data = true
      · simp only [resolveLoop, hs, hm, if_true, List.mem_cons] at hk
        rcases hk with hk | hk | hk
        · cases hk
        · injection hk
        · exact ih (i + 1) k hk
      · simp only [Bool.not_eq_true] at hm
        simp [resolveLoop, hs, hm] at hk

/-- Claim C4: during a network-creation attempt, an APIError whose
explanation lacks the subnet-overlap marker is re-raised immediately
(in particular with no subnet-resolution attempt), while on a
subnet-overlap error the conflicting network subnet resolution is
attempted at most 5 times, every backoff between attempts being the
fixed one-second sleep. -/
theorem setup_network_error_policy (subnets : List IPNet) (networkName : String)
    (e : String) (script : Nat → SubnetLookupResult) :
    (containsSub overlapMarker e.data = false →
      setup_network_iteration subnets networkName (.apiError e) script
        = ([DockerCall.createNetwork networkName], .raisedApi e)) ∧
    lookupCount (setup_network_iteration subnets networkName (.apiError e) script).1 ≤ 5 ∧
    ∀ k, DockerCall.sleepSeconds k ∈
        (setup_network_iteration subnets networkName (.apiError e) script).1 → k = 1 := by
  refine ⟨?_, ?_, ?_⟩
  · intro h
    simp [setup_network_iteration, h]
  · by_cases h : containsSub overlapMarker e.data = true
    · cases hc : extractConflictName e.data with
      | none => simp [setup_network_iteration, h, hc, lookupCount]
      | some cname =>
        have hr := resolveLoop_lookup_le subnets (String.mk cname) script 5 0
        simp only [lookupCount] at hr
        simp [setup_network_iteration, h, hc, lookupCount, List.countP_cons]
        omega
    · simp only [Bool.not_eq_true] at h
      simp [setup_network_iteration, h, lookupCount]
  · intro k hk
    by_cases h : containsSub overlapMarker e.data = true
    · cases hc : extractConflictName e.data with
      | none =>
        simp [setup_network_iteration, h, hc] at hk
      | some cname =>
        simp only [setup_network_iteration, h, hc, if_true, List.mem_cons] at hk
        rcases hk with hk | hk
        · cases hk
        · exact resolveLoop_sleep_one subnets (String.mk cname) script 5 0 k hk
    · simp only [Bool.not_eq_true] at h
      simp [setup_network_iteration, h] at hk

/-- Evaluation of the C4 theorem at a concrete non-overlap error and a
concrete lookup script. -/
theorem setup_network_error_policy_witness :
    setup_network_iteration [] "net1" (.apiError "driver failed") (fun _ =>
        SubnetLookupResult.notFound "Cannot find network (Id: n1).")
      = ([DockerCall.createNetwork "net1"], .raisedApi "driver failed") ∧
    lookupCount (setup_network_iteration [] "net1" (.apiError "driver failed") (fun _ =>
        SubnetLookupResult.notFound "Cannot find network (Id: n1).")).1 ≤ 5 := by
  have h := setup_network_error_policy [] "net1" "driver failed" (fun _ =>
    SubnetLookupResult.notFound "Cannot find network (Id: n1).")
  exact ⟨h.1 (by decide), h.2.1⟩

/-- The loop body of remove_all_containers issues a removal for a listed
container exactly when the container id differs from the orchestrator
id. -/
theorem removeContainer_mem_teardown (ownId : String) (c : ContainerInfo) (x : String) :
    DockerCall.removeContainer x ∈ container_teardown_calls ownId c ↔
      (x = c.id ∧ c.id ≠ ownId) := by
  unfold container_teardown_calls
  by_cases h1 : (host_folders_to_delete c.labels).isEmpty <;>
    by_cases h2 : c.id = ownId <;>
      simp [h1, h2]

/-- Claim C7: remove_all_containers resolves the orchestrator container
id from the cgroup lines, and a listed container is removed exactly when
its id differs from that orchestrator id. -/
theorem remove_all_containers_excludes_self (cgroupLines : List String)
    (containers : List ContainerInfo) (ownId : String) (c : ContainerInfo)
    (hown : get_clusterdock_container_id cgroupLines = Except.ok ownId)
    (hc : c ∈ containers) :
    remove_all_containers cgroupLines containers
      = Except.ok (remove_all_containers_calls ownId containers) ∧
    (DockerCall.removeContainer c.id ∈ remove_all_containers_calls ownId containers
      ↔ c.id ≠ ownId) := by
  constructor
  · unfold remove_all_containers
    rw [hown]
  · unfold remove_all_containers_calls
    rw [List.mem_flatten]
    constructor
    · rintro ⟨blk, hblk, hx⟩
      rw [List.mem_map] at hblk
      obtain ⟨c2, hc2, rfl⟩ := hblk
      have hmm := (removeContainer_mem_teardown ownId c2 c.id).mp hx
      intro heq
      exact hmm.2 (by rw [← hmm.1]; exact heq)
    · intro hne
      exact ⟨container_teardown_calls ownId c, List.mem_map_of_mem _ hc,
        (removeContainer_mem_teardown ownId c c.id).mpr ⟨rfl, hne⟩⟩

/-- Evaluation of the C7 theorem: with the orchestrator running in
container "abc" (per its cgroup line), the listed container "def" is
removed and "abc" is not. -/
theorem remove_all_containers_excludes_self_witness :
    remove_all_containers ["11:memory:/docker/abc"] [⟨"abc", []⟩, ⟨"def", []⟩]
      = Except.ok (remove_all_containers_calls "abc" [⟨"abc", []⟩, ⟨"def", []⟩]) ∧
    (DockerCall.removeContainer "def"
        ∈ remove_all_containers_calls "abc" [⟨"abc", []⟩, ⟨"def", []⟩]
      ↔ "def" ≠ "abc") :=
  remove_all_containers_excludes_self ["11:memory:/docker/abc"]
    [⟨"abc", []⟩, ⟨"def", []⟩] "abc" ⟨"def", []⟩ (by rfl) (by decide)
